import Mathlib

/-!
# Verification of the identity-provisioning core of particl-market

Shallow embedding of `src/api/services/model/IdentityService.ts`:
the identity data model, the repository-backed CRUD surface
(`findOne`, `findProfileIdentity`, `create`, `update`), the two
provisioning protocols (`createProfileIdentity`,
`createMarketIdentityForProfile`) against the wallet-custody RPC
subsystem, and the passphrase generator (`createRandom`).

The wallet-custody subsystem (`CoreRpcService`) is modelled as an
environment of pure response functions; each provisioning routine
returns the ordered trace of external calls it issued together with its
result, so ordering and persistence claims can be stated over the trace.
JavaScript `Math.random()` is modelled as a stream of rationals in
`[0,1)`; the `| 0` truncation of `x * len` for nonnegative `x` is
`jsTrunc`, and an out-of-range array index followed by `join('')`
(which renders `undefined` as the empty string) is an `Option` lookup
dropped by `filterMap`.
-/

/-- The `IdentityType` enum (src/api/enums/IdentityType.ts): role of an identity. -/
inductive IdentityType where
  | MARKET
  | PROFILE
deriving DecidableEq, Repr

/-- An extended key as returned by the custody subsystem's `extKeyList`
(`RpcExtKey`): note `current_master` is a *string* field compared against
the literal "true" in the source. -/
structure RpcExtKey where
  type : String
  key_type : String
  label : String
  current_master : String
  evkey : String
  path : String
deriving DecidableEq, Repr

/-- Nested `key_info` object of an `RpcExtKeyResult`. -/
structure RpcKeyInfo where
  path : String
deriving DecidableEq, Repr

/-- Result object of `extKeyInfo` / `extKeyImport` / `extKeyDeriveAccount`. -/
structure RpcExtKeyResult where
  id : String
  account : String
  key_info : RpcKeyInfo
deriving DecidableEq, Repr

/-- Result of `createAndLoadWallet`. -/
structure RpcWallet where
  name : String
deriving DecidableEq, Repr

/-- Result of `getWalletInfo`. -/
structure RpcWalletInfo where
  hdseedid : String
deriving DecidableEq, Repr

/-- Result of the `mnemonic` RPC. -/
structure RpcMnemonic where
  mnemonic : String
deriving DecidableEq, Repr

/-- A heterogeneous argument of the `mnemonic` RPC call
(`['new', passphrase, 'english', 32, true]`). -/
inductive MnemonicArg where
  | str (s : String)
  | num (n : Nat)
  | bool (b : Bool)
deriving DecidableEq, Repr

/-- The stored `Identity` row (models/Identity.ts columns used by the
service): `mnemonic`/`passphrase` are nullable. -/
structure Identity where
  id : Nat
  profileId : Nat
  wallet : String
  address : String
  hdseedid : String
  path : String
  mnemonic : Option String
  passphrase : Option String
  type : IdentityType
deriving DecidableEq, Repr

/-- The `IdentityCreateRequest`: the plain-data body handed to
`identityRepository.create`. -/
structure IdentityCreateRequest where
  profile_id : Nat
  wallet : String
  address : String
  hdseedid : String
  path : String
  mnemonic : Option String
  passphrase : Option String
  type : IdentityType
deriving DecidableEq, Repr

/-- The `IdentityUpdateRequest`: body of `update`. -/
structure IdentityUpdateRequest where
  wallet : String
  address : String
  hdseedid : String
  path : String
  mnemonic : Option String
  passphrase : Option String
  type : IdentityType
deriving DecidableEq, Repr

/-- A profile as seen through `ProfileService.findOne(...).toJSON()`:
its id, human-readable name, and attached `Identities`. -/
structure Profile where
  id : Nat
  name : String
  Identities : List Identity
deriving DecidableEq, Repr

/-- The exception kinds thrown on this surface:
`NotFoundException` (lookup by key missed), `ModelNotFoundException`
(e.g. profile has no PROFILE identity), `MessageException` (fatal
protocol error), and the JavaScript `TypeError` raised when
`.toJSON()` is invoked on a `null` result. -/
inductive Err where
  | NotFoundException (key : String)
  | ModelNotFoundException (model : String)
  | MessageException (msg : String)
  | TypeError
deriving DecidableEq, Repr

/-- One external call issued by the service: the wallet-custody RPCs plus
the single local store `create`. Constructors record the arguments
exactly as passed in the source. -/
inductive Call where
  | createAndLoadWallet (name : String) (disablePrivateKeys : Bool) (blank : Bool)
  | extKeyList (wallet : String) (showSecrets : Bool)
  | extKeyGenesisImport (wallet : String) (args : List String)
  | extKeyInfo (wallet : String) (key : String) (path : String)
  | extKeyAltVersion (key : String)
  | extKeyImport (wallet : String) (key : String) (label : String) (flag : Bool)
  | extKeySetMaster (wallet : String) (keyId : String)
  | extKeyDeriveAccount (wallet : String) (label : String)
  | extKeySetDefaultAccount (wallet : String) (account : String)
  | getNewAddress (wallet : String)
  | getWalletInfo (wallet : String)
  | mnemonic (args : List MnemonicArg)
  | storeCreate (req : IdentityCreateRequest)
deriving DecidableEq, Repr

/-- The wallet-custody subsystem (`CoreRpcService`) as an environment of
pure response functions; calls whose results the service never reads
(`extKeyGenesisImport`, `extKeySetMaster`, `extKeySetDefaultAccount`)
need no response field. -/
structure CoreRpcEnv where
  createAndLoadWallet : String → Bool → Bool → RpcWallet
  extKeyList : String → Bool → List RpcExtKey
  extKeyInfo : String → String → String → RpcExtKeyResult
  extKeyAltVersion : String → String
  extKeyImport : String → String → String → Bool → RpcExtKeyResult
  extKeyDeriveAccount : String → String → RpcExtKeyResult
  getNewAddress : String → String
  getWalletInfo : String → RpcWalletInfo
  mnemonic : List MnemonicArg → RpcMnemonic

/-- The identity store: rows plus the next primary key to assign. -/
structure IdentityRepo where
  rows : List Identity
  nextId : Nat
deriving DecidableEq, Repr

/-- The `identityRepository.findOne`: `null` when absent. -/
def IdentityRepo.findOne (repo : IdentityRepo) (id : Nat) : Option Identity :=
  repo.rows.find? (fun r => r.id == id)

/-- The `identityRepository.create`: assigns the next id, appends the row,
returns the stored record. -/
def IdentityRepo.create (repo : IdentityRepo) (req : IdentityCreateRequest) :
    Identity × IdentityRepo :=
  let row : Identity :=
    { id := repo.nextId, profileId := req.profile_id, wallet := req.wallet,
      address := req.address, hdseedid := req.hdseedid, path := req.path,
      mnemonic := req.mnemonic, passphrase := req.passphrase, type := req.type }
  (row, { rows := repo.rows ++ [row], nextId := repo.nextId + 1 })

/-- The `identityRepository.update`: replaces the row with the given id. -/
def IdentityRepo.update (repo : IdentityRepo) (id : Nat) (row : Identity) :
    IdentityRepo :=
  { repo with rows := repo.rows.map (fun r => if r.id == id then row else r) }

namespace IdentityService

/-- The `ProfileService.findOne(profileId).toJSON()`: resolves a profile by id
from the profile collaborator's state (ProfileService.ts is outside this
excerpt; absence surfaces as its `ModelNotFoundException`). -/
def profileFindOne (profiles : List Profile) (profileId : Nat) : Except Err Profile :=
  match profiles.find? (fun p => p.id == profileId) with
  | none => .error (.ModelNotFoundException "Profile")
  | some p => .ok p

/-- The `IdentityService.findOne`: repository lookup, `NotFoundException(id)`
when absent. -/
def findOne (repo : IdentityRepo) (id : Nat) : Except Err Identity :=
  match repo.findOne id with
  | none => .error (.NotFoundException (toString id))
  | some identity => .ok identity

/-- The `IdentityService.findProfileIdentity`: resolves the profile, picks the
first attached identity with `type === IdentityType.PROFILE`
(`ModelNotFoundException('Identity')` if none), then returns the raw
repository lookup for that identity's id — which the source does *not*
check for `null`. -/
def findProfileIdentity (profiles : List Profile) (repo : IdentityRepo)
    (profileId : Nat) : Except Err (Option Identity) :=
  match profileFindOne profiles profileId with
  | .error e => .error e
  | .ok profile =>
    match profile.Identities.find? (fun p => p.type == IdentityType.PROFILE) with
    | none => .error (.ModelNotFoundException "Identity")
    | some identity => .ok (repo.findOne identity.id)

/-- The master-key selection predicate shared by both provisioning
routines (IdentityService.ts lines 104-106 and 161-163). -/
def masterKeyPred (key : RpcExtKey) : Bool :=
  key.type == "Loose" && key.key_type == "Master" &&
    key.label == "Master Key - bip44 derived." && key.current_master == "true"

/-- The `IdentityService.update`: loads the existing row (`NotFoundException`
if missing) and overwrites its mutable fields from the request body.
Note the source assigns `body.hdseedid` to *both* `Hdseedid` and `Path`
(line 193); this embedding reproduces that assignment. -/
def update (repo : IdentityRepo) (id : Nat) (body : IdentityUpdateRequest) :
    Except Err (Identity × IdentityRepo) :=
  match findOne repo id with
  | .error e => .error e
  | .ok identity =>
    let updated : Identity :=
      { identity with
        wallet := body.wallet
        address := body.address
        hdseedid := body.hdseedid
        path := body.hdseedid
        mnemonic := body.mnemonic
        passphrase := body.passphrase
        type := body.type }
    .ok (updated, repo.update id updated)

/-- JavaScript `x | 0` applied to `x = r * len` with `r ≥ 0`: truncation
toward zero of a nonnegative rational, as a natural number. -/
def jsTrunc (q : ℚ) : ℕ := (⌊q⌋).toNat

/-- The concatenation `[...capsChars, ...lowerChars, ...numChars,
...uniqueChars]` of the enabled character classes of `createRandom`. -/
def selectedChars (caps lower numbers uniq : Bool) : List Char :=
  (if caps then "ABCDEFGHIJKLMNOPQRSTUVWXYZ".toList else []) ++
  (if lower then "abcdefghijklmnopqrstuvwxyz".toList else []) ++
  (if numbers then "0123456789".toList else []) ++
  (if uniq then "~!@#$%^&*()_+-=[]\x7b\x7d;:,.<>?".toList else [])

/-- The `IdentityService.createRandom`: builds the enabled character classes,
concatenates them, and maps each of `length` positions to
`selectedChars[Math.random() * selectedChars.length | 0]`, joining with
`''`. An out-of-range index yields `undefined`, which `join('')` renders
as the empty string — hence the `filterMap`. `rand i` models the `i`-th
`Math.random()` draw. -/
def createRandom (rand : ℕ → ℚ) (length : ℕ := 24) (caps : Bool := true)
    (lower : Bool := true) (numbers : Bool := true) (uniq : Bool := true) : String :=
  String.mk ((List.range length).filterMap
    (fun i => (selectedChars caps lower numbers uniq).get?
      (jsTrunc (rand i * (selectedChars caps lower numbers uniq).length))))

/-- The hard-coded market-account derivation sub-path passed to
`extKeyInfo` (IdentityService.ts line 112). -/
def marketKeyPath : String := "4444446'/0'"

/-- The `IdentityService.createMarketIdentityForProfile`: resolves the
profile identity, selects the profile wallet's master key, queries the
key info at the fixed sub-path, creates the market wallet, imports the
master key (passing `masterKey.evkey`; the `extKeyAltVersion` result is
requested but unused), designates it master, derives and sets the
default account, fetches an address and wallet info, and persists the
MARKET identity. Returns the trace of external calls (in issue order)
alongside the result. -/
def createMarketIdentityForProfile (env : CoreRpcEnv) (profiles : List Profile)
    (repo : IdentityRepo) (profile : Profile) :
    List Call × Except Err (Identity × IdentityRepo) :=
  match findProfileIdentity profiles repo profile.id with
  | .error e => ([], .error e)
  | .ok none => ([], .error .TypeError)
  | .ok (some profileIdentity) =>
    let extKeys := env.extKeyList profileIdentity.wallet true
    let listTrace := [Call.extKeyList profileIdentity.wallet true]
    match extKeys.find? masterKeyPred with
    | none =>
      (listTrace, .error (.MessageException "Could not find Profile wallets Master key."))
    | some masterKey =>
      let keyInfo := env.extKeyInfo profileIdentity.wallet masterKey.evkey marketKeyPath
      let walletName := "profiles/" ++ profile.name ++ "/particl-market"
      let marketWallet := env.createAndLoadWallet walletName false true
      let extKeyAlt := env.extKeyAltVersion masterKey.evkey
      let extKeyImported := env.extKeyImport marketWallet.name masterKey.evkey "master key" true
      let marketAccount := env.extKeyDeriveAccount marketWallet.name "market account"
      let address := env.getNewAddress marketWallet.name
      let walletInfo := env.getWalletInfo marketWallet.name
      let req : IdentityCreateRequest :=
        { profile_id := profile.id, wallet := marketWallet.name, address := address,
          hdseedid := walletInfo.hdseedid, path := keyInfo.key_info.path,
          mnemonic := none, passphrase := none, type := IdentityType.MARKET }
      let (created, repo') := repo.create req
      (listTrace ++
        [Call.extKeyInfo profileIdentity.wallet masterKey.evkey marketKeyPath,
         Call.createAndLoadWallet walletName false true,
         Call.extKeyAltVersion masterKey.evkey,
         Call.extKeyImport marketWallet.name masterKey.evkey "master key" true,
         Call.extKeySetMaster marketWallet.name extKeyImported.id,
         Call.extKeyDeriveAccount marketWallet.name "market account",
         Call.extKeySetDefaultAccount marketWallet.name marketAccount.account,
         Call.getNewAddress marketWallet.name,
         Call.getWalletInfo marketWallet.name,
         Call.storeCreate req],
       .ok (created, repo'))

/-- The argument list of the `mnemonic` RPC call
(IdentityService.ts line 155). -/
def mnemonicArgs (passphrase : String) : List MnemonicArg :=
  [.str "new", .str passphrase, .str "english", .num 32, .bool true]

/-- The `IdentityService.createProfileIdentity`: creates and loads a blank
wallet named from the profile, generates a passphrase and a mnemonic,
genesis-imports the mnemonic, selects the wallet's master key (fatal
`MessageException` if absent), fetches an address and wallet info
(note the source passes `walletName`, not `wallet.name`, to
`getWalletInfo`), and persists the PROFILE identity. Returns the
trace of external calls (in issue order) alongside the result. -/
def createProfileIdentity (env : CoreRpcEnv) (rand : ℕ → ℚ)
    (repo : IdentityRepo) (profile : Profile) :
    List Call × Except Err (Identity × IdentityRepo) :=
  let walletName := "profiles/" ++ profile.name
  let wallet := env.createAndLoadWallet walletName false true
  let passphrase := createRandom rand
  let mnemonicRes := env.mnemonic (mnemonicArgs passphrase)
  let extKeys := env.extKeyList wallet.name true
  let preTrace :=
    [Call.createAndLoadWallet walletName false true,
     Call.mnemonic (mnemonicArgs passphrase),
     Call.extKeyGenesisImport wallet.name [mnemonicRes.mnemonic, passphrase],
     Call.extKeyList wallet.name true]
  match extKeys.find? masterKeyPred with
  | none =>
    (preTrace, .error (.MessageException "Could not find Profile wallets Master key."))
  | some masterKey =>
    let address := env.getNewAddress wallet.name
    let walletInfo := env.getWalletInfo walletName
    let req : IdentityCreateRequest :=
      { profile_id := profile.id, wallet := wallet.name, address := address,
        hdseedid := walletInfo.hdseedid, path := masterKey.path,
        mnemonic := some mnemonicRes.mnemonic, passphrase := some passphrase,
        type := IdentityType.PROFILE }
    let (created, repo') := repo.create req
    (preTrace ++
      [Call.getNewAddress wallet.name,
       Call.getWalletInfo walletName,
       Call.storeCreate req],
     .ok (created, repo'))

end IdentityService

/-! ## Concrete fixtures used by witnesses and counterexamples -/

/-- A well-formed master key as the custody subsystem labels it. -/
def sampleMasterKey : RpcExtKey :=
  { type := "Loose", key_type := "Master", label := "Master Key - bip44 derived.",
    current_master := "true", evkey := "evkey-root", path := "m/44'/44'" }

/-- A non-master key, for listings without a usable master key. -/
def sampleLooseKey : RpcExtKey :=
  { type := "Loose", key_type := "Account", label := "some account",
    current_master := "false", evkey := "evkey-acct", path := "m/0'" }

/-- A custody environment whose listing holds a proper master key, whose
`extKeyInfo` reports a path different from the requested sub-path, and
whose `extKeyAltVersion` returns a string different from its input. -/
def sampleEnv : CoreRpcEnv :=
  { createAndLoadWallet := fun n _ _ => { name := n }
    extKeyList := fun _ _ => [sampleLooseKey, sampleMasterKey]
    extKeyInfo := fun _ _ p => { id := "ki-id", account := "ki-acct", key_info := { path := "m/44'/" ++ p } }
    extKeyAltVersion := fun k => "alt-" ++ k
    extKeyImport := fun _ _ _ _ => { id := "imp-id", account := "imp-acct", key_info := { path := "" } }
    extKeyDeriveAccount := fun _ _ => { id := "acct-id", account := "acct", key_info := { path := "" } }
    getNewAddress := fun _ => "PaddrNew1"
    getWalletInfo := fun _ => { hdseedid := "seedid-1" }
    mnemonic := fun _ => { mnemonic := "abandon ability able about" } }

/-- The environment `sampleEnv` altered to an extended-key listing holding no master key. -/
def noMasterEnv : CoreRpcEnv :=
  { sampleEnv with extKeyList := fun _ _ => [sampleLooseKey] }

/-- A stored PROFILE identity for the sample profile. -/
def sampleProfileIdentity : Identity :=
  { id := 1, profileId := 7, wallet := "profiles/alice", address := "Paddr0",
    hdseedid := "seedid-0", path := "m/44'/44'", mnemonic := some "mn words",
    passphrase := some "pp", type := IdentityType.PROFILE }

/-- A profile named "alice" owning `sampleProfileIdentity`. -/
def sampleProfile : Profile :=
  { id := 7, name := "alice", Identities := [sampleProfileIdentity] }

/-- The profile collaborator's state: just `sampleProfile`. -/
def sampleProfiles : List Profile := [sampleProfile]

/-- The identity store holding `sampleProfileIdentity`. -/
def sampleRepo : IdentityRepo := { rows := [sampleProfileIdentity], nextId := 2 }

/-- A constant model of `Math.random` returning 0 at every draw (Rat
arithmetic on nonzero values does not kernel-reduce, so witnesses use
the zero stream). -/
def zeroRand : ℕ → ℚ := fun _ => 0

/-- An empty identity store. -/
def emptyRepo : IdentityRepo := { rows := [], nextId := 1 }

/-- An update request whose `path` differs from its `hdseedid`. -/
def sampleUpdateRequest : IdentityUpdateRequest :=
  { wallet := "wallet-2", address := "addr-2", hdseedid := "seed-2", path := "m/99'/1'",
    mnemonic := some "new words", passphrase := some "newpass",
    type := IdentityType.PROFILE }

/-- The row actually stored by `update sampleRepo 1 sampleUpdateRequest`:
its `path` column holds the request's `hdseedid`. -/
def sampleUpdatedIdentity : Identity :=
  { id := 1, profileId := 7, wallet := "wallet-2", address := "addr-2",
    hdseedid := "seed-2", path := "seed-2", mnemonic := some "new words",
    passphrase := some "newpass", type := IdentityType.PROFILE }

/-- The MARKET identity produced by running
`createMarketIdentityForProfile` on the sample fixtures. -/
def sampleMarketIdentity : Identity :=
  { id := 2, profileId := 7, wallet := "profiles/alice/particl-market",
    address := "PaddrNew1", hdseedid := "seedid-1", path := "m/44'/4444446'/0'",
    mnemonic := none, passphrase := none, type := IdentityType.MARKET }

/-- A MARKET-role identity owned by the profile "bob". -/
def marketOnlyIdentity : Identity :=
  { id := 5, profileId := 8, wallet := "profiles/bob/particl-market",
    address := "PaddrB", hdseedid := "seedB", path := "m/1'",
    mnemonic := none, passphrase := none, type := IdentityType.MARKET }

/-- A profile that exists but has no PROFILE-role identity. -/
def bobProfile : Profile :=
  { id := 8, name := "bob", Identities := [marketOnlyIdentity] }

/-- Projects the key argument out of an `extKeyImport` trace entry. -/
def Call.importedKey : Call → Option String
  | .extKeyImport _ k _ _ => some k
  | _ => none

/-- Projects the request out of a `storeCreate` trace entry. -/
def Call.createReqOf : Call → Option IdentityCreateRequest
  | .storeCreate r => some r
  | _ => none

/-- The identity row a successful `createMarketIdentityForProfile`
persists, as a function of the environment, the resolved profile
identity `pi`, the selected master key, and the store's next id. -/
def marketRecord (env : CoreRpcEnv) (profile : Profile) (pi : Identity)
    (masterKey : RpcExtKey) (nextId : ℕ) : Identity :=
  let marketWallet := env.createAndLoadWallet ("profiles/" ++ profile.name ++ "/particl-market") false true
  { id := nextId, profileId := profile.id, wallet := marketWallet.name,
    address := env.getNewAddress marketWallet.name,
    hdseedid := (env.getWalletInfo marketWallet.name).hdseedid,
    path := (env.extKeyInfo pi.wallet masterKey.evkey IdentityService.marketKeyPath).key_info.path,
    mnemonic := none, passphrase := none, type := IdentityType.MARKET }

/-- The create request a successful `createProfileIdentity` hands to the
store, as a function of the environment, the random stream, the profile
and the selected master key. -/
def profileCreateReq (env : CoreRpcEnv) (rand : ℕ → ℚ) (profile : Profile)
    (masterKey : RpcExtKey) : IdentityCreateRequest :=
  let wallet := env.createAndLoadWallet ("profiles/" ++ profile.name) false true
  let passphrase := IdentityService.createRandom rand
  { profile_id := profile.id, wallet := wallet.name,
    address := env.getNewAddress wallet.name,
    hdseedid := (env.getWalletInfo ("profiles/" ++ profile.name)).hdseedid,
    path := masterKey.path,
    mnemonic := some (env.mnemonic (IdentityService.mnemonicArgs passphrase)).mnemonic,
    passphrase := some passphrase, type := IdentityType.PROFILE }

/-- The identity row a successful `createProfileIdentity` persists. -/
def profileRecord (env : CoreRpcEnv) (rand : ℕ → ℚ) (profile : Profile)
    (masterKey : RpcExtKey) (nextId : ℕ) : Identity :=
  let wallet := env.createAndLoadWallet ("profiles/" ++ profile.name) false true
  let passphrase := IdentityService.createRandom rand
  { id := nextId, profileId := profile.id, wallet := wallet.name,
    address := env.getNewAddress wallet.name,
    hdseedid := (env.getWalletInfo ("profiles/" ++ profile.name)).hdseedid,
    path := masterKey.path,
    mnemonic := some (env.mnemonic (IdentityService.mnemonicArgs passphrase)).mnemonic,
    passphrase := some passphrase, type := IdentityType.PROFILE }

/-! ## Helper lemmas -/

theorem length_filterMap_all_some {α β : Type} (f : α → Option β) (l : List α)
    (h : ∀ a ∈ l, (f a).isSome) : (l.filterMap f).length = l.length := by
  induction l with
  | nil => simp
  | cons x xs ih =>
    obtain ⟨b, hb⟩ := Option.isSome_iff_exists.mp (h x (by simp))
    simp only [List.filterMap_cons, hb, List.length_cons]
    exact congrArg (· + 1) (ih (fun a ha => h a (by simp [ha])))

namespace IdentityService

theorem jsTrunc_mul_lt (q : ℚ) (n : ℕ) (hq0 : 0 ≤ q) (hq1 : q < 1) (hn : 0 < n) :
    jsTrunc (q * n) < n := by
  have h0 : (0 : ℚ) ≤ q * n := mul_nonneg hq0 (Nat.cast_nonneg n)
  have h1 : q * n < n := by
    have hn' : (0 : ℚ) < n := by exact_mod_cast hn
    calc q * (n : ℚ) < 1 * n := mul_lt_mul_of_pos_right hq1 hn'
    _ = n := one_mul _
  have hf0 : 0 ≤ ⌊(q * n : ℚ)⌋ := Int.floor_nonneg.mpr h0
  have hf1 : ⌊(q * n : ℚ)⌋ < (n : ℤ) := Int.floor_lt.mpr (by exact_mod_cast h1)
  unfold jsTrunc
  omega

theorem selectedChars_length_pos (caps lower numbers uniq : Bool)
    (h : caps = true ∨ lower = true ∨ numbers = true ∨ uniq = true) :
    0 < (selectedChars caps lower numbers uniq).length := by
  cases caps <;> cases lower <;> cases numbers <;> cases uniq <;>
    first
    | decide
    | simp_all

theorem createRandom_length (rand : ℕ → ℚ) (len : ℕ) (caps lower numbers uniq : Bool)
    (hr : ∀ i, 0 ≤ rand i ∧ rand i < 1)
    (hpos : 0 < (selectedChars caps lower numbers uniq).length) :
    (createRandom rand len caps lower numbers uniq).length = len := by
  show ((List.range len).filterMap _).length = len
  rw [length_filterMap_all_some, List.length_range]
  intro i _
  have hidx := jsTrunc_mul_lt (rand i) (selectedChars caps lower numbers uniq).length
    (hr i).1 (hr i).2 hpos
  rw [List.get?_eq_get hidx]
  rfl

theorem createRandom_mem (rand : ℕ → ℚ) (len : ℕ) (caps lower numbers uniq : Bool)
    (c : Char) (hc : c ∈ (createRandom rand len caps lower numbers uniq).data) :
    c ∈ selectedChars caps lower numbers uniq := by
  obtain ⟨i, _, hfi⟩ := List.mem_filterMap.mp hc
  exact List.get?_mem hfi

theorem createRandom_all_disabled (rand : ℕ → ℚ) (len : ℕ) :
    createRandom rand len false false false false = "" := by
  show String.mk _ = ""
  rw [List.filterMap_eq_nil_iff.mpr]
  intro a _
  rfl

end IdentityService

/-! ## Claim theorems -/

/-- Claim C8: for every configuration of the four character classes and
every valid random stream, `createRandom` with length 24 returns a
string of exactly 24 characters, each drawn only from the union of the
enabled classes; with all four classes disabled it returns the empty
string. -/
theorem createRandom_length_and_classes (rand : ℕ → ℚ)
    (caps lower numbers uniq : Bool) (hr : ∀ i, 0 ≤ rand i ∧ rand i < 1) :
    ((caps = true ∨ lower = true ∨ numbers = true ∨ uniq = true) →
      (IdentityService.createRandom rand 24 caps lower numbers uniq).length = 24 ∧
      ∀ c ∈ (IdentityService.createRandom rand 24 caps lower numbers uniq).data,
        c ∈ IdentityService.selectedChars caps lower numbers uniq) ∧
    (caps = false → lower = false → numbers = false → uniq = false →
      IdentityService.createRandom rand 24 caps lower numbers uniq = "") := by
  constructor
  · intro h
    exact ⟨IdentityService.createRandom_length rand 24 caps lower numbers uniq hr
        (IdentityService.selectedChars_length_pos caps lower numbers uniq h),
      fun c hc => IdentityService.createRandom_mem rand 24 caps lower numbers uniq c hc⟩
  · intro h1 h2 h3 h4
    subst h1; subst h2; subst h3; subst h4
    exact IdentityService.createRandom_all_disabled rand 24

/-- Witness for C8: the default configuration over the zero stream
yields a 24-character passphrase, and the all-disabled configuration
yields the empty string. -/
theorem createRandom_length_and_classes_witness :
    (IdentityService.createRandom zeroRand 24 true true true true).length = 24 ∧
    IdentityService.createRandom zeroRand 24 false false false false = "" :=
  ⟨((createRandom_length_and_classes zeroRand true true true true
      (fun _ => ⟨le_refl 0, zero_lt_one⟩)).1 (Or.inl rfl)).1,
   (createRandom_length_and_classes zeroRand false false false false
      (fun _ => ⟨le_refl 0, zero_lt_one⟩)).2 rfl rfl rfl rfl⟩

/-- Claim C2 (code bug): `update` writes the request's `hdseedid` into
the stored `path` column (IdentityService.ts line 193,
`identity.Path = body.hdseedid`), so after `update(1, req)` with
`req.path = "m/99'/1'"` and `req.hdseedid = "seed-2"`, `findOne(1)`
returns a record whose `path` is `"seed-2"`, not `req.path`. -/
theorem update_writes_hdseedid_into_path :
    IdentityService.update sampleRepo 1 sampleUpdateRequest =
      .ok (sampleUpdatedIdentity, { rows := [sampleUpdatedIdentity], nextId := 2 }) ∧
    IdentityService.findOne { rows := [sampleUpdatedIdentity], nextId := 2 } 1 =
      .ok sampleUpdatedIdentity ∧
    sampleUpdatedIdentity.path = sampleUpdateRequest.hdseedid ∧
    sampleUpdatedIdentity.path ≠ sampleUpdateRequest.path :=
  ⟨rfl, rfl, rfl, by decide⟩

/-- Claim C10: a successful `update(id, body)` leaves the stored row's
`id` and `profileId` exactly as they were on the loaded record, while
the other mutable columns come from the request body (with `path`
receiving `body.hdseedid`, see C2). -/
theorem update_preserves_id_and_profileId (repo : IdentityRepo) (id : ℕ)
    (body : IdentityUpdateRequest) (old updated : Identity) (repo' : IdentityRepo)
    (hold : IdentityService.findOne repo id = .ok old)
    (h : IdentityService.update repo id body = .ok (updated, repo')) :
    updated.id = old.id ∧ updated.profileId = old.profileId ∧
    updated.wallet = body.wallet ∧ updated.address = body.address ∧
    updated.hdseedid = body.hdseedid ∧ updated.mnemonic = body.mnemonic ∧
    updated.passphrase = body.passphrase ∧ updated.type = body.type ∧
    repo' = repo.update id updated := by
  unfold IdentityService.update at h
  rw [hold] at h
  simp only [Except.ok.injEq, Prod.mk.injEq] at h
  obtain ⟨h1, h2⟩ := h
  subst h1
  subst h2
  simp

/-- Witness for C10 at the sample fixtures. -/
theorem update_preserves_id_and_profileId_witness :
    sampleUpdatedIdentity.id = sampleProfileIdentity.id ∧
    sampleUpdatedIdentity.profileId = sampleProfileIdentity.profileId ∧
    sampleUpdatedIdentity.wallet = sampleUpdateRequest.wallet ∧
    sampleUpdatedIdentity.address = sampleUpdateRequest.address ∧
    sampleUpdatedIdentity.hdseedid = sampleUpdateRequest.hdseedid ∧
    sampleUpdatedIdentity.mnemonic = sampleUpdateRequest.mnemonic ∧
    sampleUpdatedIdentity.passphrase = sampleUpdateRequest.passphrase ∧
    sampleUpdatedIdentity.type = sampleUpdateRequest.type ∧
    ({ rows := [sampleUpdatedIdentity], nextId := 2 } : IdentityRepo) =
      sampleRepo.update 1 sampleUpdatedIdentity :=
  update_preserves_id_and_profileId sampleRepo 1 sampleUpdateRequest
    sampleProfileIdentity sampleUpdatedIdentity
    { rows := [sampleUpdatedIdentity], nextId := 2 } (by rfl) (by rfl)

/-- Claim C9 (implicit): the final store lookup inside
`findProfileIdentity` is not checked for absence — when the profile's
PROFILE-role identity id has no row in the store, the call resolves
successfully with the store's absence value (`null`/`none`) instead of
raising `NotFoundException`. -/
theorem findProfileIdentity_returns_null_on_missing_row
    (profiles : List Profile) (repo : IdentityRepo) (profileId : ℕ)
    (p : Profile) (ident : Identity)
    (hp : IdentityService.profileFindOne profiles profileId = .ok p)
    (hfind : p.Identities.find? (fun q => q.type == IdentityType.PROFILE) = some ident)
    (habs : repo.findOne ident.id = none) :
    IdentityService.findProfileIdentity profiles repo profileId = .ok none := by
  simp [IdentityService.findProfileIdentity, hp, hfind, habs]

/-- Witness for C9: the sample profile against an empty store. -/
theorem findProfileIdentity_returns_null_on_missing_row_witness :
    IdentityService.findProfileIdentity sampleProfiles emptyRepo 7 = .ok none :=
  findProfileIdentity_returns_null_on_missing_row sampleProfiles emptyRepo 7
    sampleProfile sampleProfileIdentity (by rfl) (by rfl) (by rfl)

/-- Claim C7: when the profile exists but owns no PROFILE-role identity,
`findProfileIdentity` fails with `ModelNotFoundException "Identity"`, an
error kind distinct from the `NotFoundException` that `findOne` raises
when an identity id is absent from the store. -/
theorem findProfileIdentity_roleNotFound_distinct
    (profiles : List Profile) (repo : IdentityRepo) (profileId : ℕ) (p : Profile)
    (hp : IdentityService.profileFindOne profiles profileId = .ok p)
    (hnone : ∀ i ∈ p.Identities, i.type ≠ IdentityType.PROFILE) :
    IdentityService.findProfileIdentity profiles repo profileId =
      .error (.ModelNotFoundException "Identity") ∧
    (∀ key, Err.ModelNotFoundException "Identity" ≠ Err.NotFoundException key) ∧
    (∀ i, repo.findOne i = none →
      IdentityService.findOne repo i = .error (.NotFoundException (toString i))) := by
  refine ⟨?_, fun key h => Err.noConfusion h, fun i hi => ?_⟩
  · have hfind : p.Identities.find? (fun q => q.type == IdentityType.PROFILE) = none :=
      List.find?_eq_none.mpr (fun x hx => by simp [hnone x hx])
    simp [IdentityService.findProfileIdentity, hp, hfind]
  · unfold IdentityService.findOne
    rw [hi]

/-- Witness for C7: profile "bob" owns only a MARKET identity. -/
theorem findProfileIdentity_roleNotFound_distinct_witness :
    IdentityService.findProfileIdentity [bobProfile] sampleRepo 8 =
      .error (.ModelNotFoundException "Identity") :=
  (findProfileIdentity_roleNotFound_distinct [bobProfile] sampleRepo 8 bobProfile
    (by rfl) (by decide)).1

/-- Claim C1: when the custody subsystem's extended-key listing contains
no key satisfying the master-key selection rule, both
`createMarketIdentityForProfile` (given a resolvable profile identity)
and `createProfileIdentity` fail with the fatal
`MessageException "Could not find Profile wallets Master key."`, and
neither run ever invokes the store's `create`. -/
theorem noMasterKey_both_provisionings_fail (env : CoreRpcEnv)
    (profiles : List Profile) (repo : IdentityRepo) (profile : Profile)
    (rand : ℕ → ℚ) (pi : Identity)
    (hpi : IdentityService.findProfileIdentity profiles repo profile.id = .ok (some pi))
    (hkeys : ∀ w s, ∀ k ∈ env.extKeyList w s, IdentityService.masterKeyPred k = false) :
    (IdentityService.createMarketIdentityForProfile env profiles repo profile).2 =
      .error (.MessageException "Could not find Profile wallets Master key.") ∧
    (∀ req, Call.storeCreate req ∉
      (IdentityService.createMarketIdentityForProfile env profiles repo profile).1) ∧
    (IdentityService.createProfileIdentity env rand repo profile).2 =
      .error (.MessageException "Could not find Profile wallets Master key.") ∧
    (∀ req, Call.storeCreate req ∉
      (IdentityService.createProfileIdentity env rand repo profile).1) := by
  have hm : ∀ w s, (env.extKeyList w s).find? IdentityService.masterKeyPred = none :=
    fun w s => List.find?_eq_none.mpr (fun k hk => by simp [hkeys w s k hk])
  refine ⟨?_, ?_, ?_, ?_⟩ <;>
    simp [IdentityService.createMarketIdentityForProfile,
      IdentityService.createProfileIdentity, hpi, hm]

/-- Witness for C1: `noMasterEnv` lists only a non-master key; both
provisioning runs on the sample fixtures fail with the fatal error. -/
theorem noMasterKey_both_provisionings_fail_witness :
    (IdentityService.createMarketIdentityForProfile noMasterEnv sampleProfiles
        sampleRepo sampleProfile).2 =
      .error (.MessageException "Could not find Profile wallets Master key.") ∧
    (IdentityService.createProfileIdentity noMasterEnv zeroRand sampleRepo
        sampleProfile).2 =
      .error (.MessageException "Could not find Profile wallets Master key.") := by
  have h := noMasterKey_both_provisionings_fail noMasterEnv sampleProfiles sampleRepo
    sampleProfile zeroRand sampleProfileIdentity (by rfl)
    (by
      intro w s k hk
      simp only [noMasterEnv, sampleEnv, List.mem_singleton] at hk
      subst hk
      decide)
  exact ⟨h.1, h.2.2.1⟩

/-- Claim C3 counterexample: in the successful sample run of
`createMarketIdentityForProfile`, the only `extKeyImport` call passes
the master key's own `evkey` ("evkey-root"), while the preceding
`extKeyAltVersion` call returned "alt-evkey-root" — so the imported key
is not the alternate-serialized string. -/
theorem extKeyImport_key_not_altVersion :
    ((IdentityService.createMarketIdentityForProfile sampleEnv sampleProfiles
        sampleRepo sampleProfile).1.filterMap Call.importedKey) = ["evkey-root"] ∧
    Call.extKeyAltVersion "evkey-root" ∈
      (IdentityService.createMarketIdentityForProfile sampleEnv sampleProfiles
        sampleRepo sampleProfile).1 ∧
    sampleEnv.extKeyAltVersion "evkey-root" = "alt-evkey-root" ∧
    ("evkey-root" : String) ≠ "alt-evkey-root" :=
  ⟨rfl, by decide, rfl, by decide⟩

/-- Claim C3 (amended): in every successful run of
`createMarketIdentityForProfile`, the key passed to `extKeyImport` is
the selected master key's own `evkey`; the alternate serialization is
requested via `extKeyAltVersion` but its result is not the imported
key. -/
theorem extKeyImport_uses_master_evkey (env : CoreRpcEnv)
    (profiles : List Profile) (repo : IdentityRepo) (profile : Profile)
    (pi : Identity) (masterKey : RpcExtKey)
    (hpi : IdentityService.findProfileIdentity profiles repo profile.id = .ok (some pi))
    (hmk : (env.extKeyList pi.wallet true).find? IdentityService.masterKeyPred =
      some masterKey) :
    Call.extKeyImport
        (env.createAndLoadWallet ("profiles/" ++ profile.name ++ "/particl-market")
          false true).name masterKey.evkey "master key" true ∈
      (IdentityService.createMarketIdentityForProfile env profiles repo profile).1 ∧
    Call.extKeyAltVersion masterKey.evkey ∈
      (IdentityService.createMarketIdentityForProfile env profiles repo profile).1 ∧
    ((IdentityService.createMarketIdentityForProfile env profiles repo
        profile).1.filterMap Call.importedKey) = [masterKey.evkey] := by
  refine ⟨?_, ?_, ?_⟩ <;>
    simp [IdentityService.createMarketIdentityForProfile, hpi, hmk, Call.importedKey]

/-- Witness for C3's amended theorem at the sample fixtures. -/
theorem extKeyImport_uses_master_evkey_witness :
    ((IdentityService.createMarketIdentityForProfile sampleEnv sampleProfiles
        sampleRepo sampleProfile).1.filterMap Call.importedKey) =
      [sampleMasterKey.evkey] :=
  (extKeyImport_uses_master_evkey sampleEnv sampleProfiles sampleRepo sampleProfile
    sampleProfileIdentity sampleMasterKey (by rfl) (by rfl)).2.2

/-- Claim C4 counterexample: a successful sample run of
`createMarketIdentityForProfile` persists a derivationPath of
"m/44'/4444446'/0'" — the path *reported* by `extKeyInfo` — which
differs from the fixed sub-path "4444446'/0'" supplied in the request,
refuting the claim that the stored path equals the supplied sub-path. -/
theorem market_path_not_requested_subpath :
    (IdentityService.createMarketIdentityForProfile sampleEnv sampleProfiles
        sampleRepo sampleProfile).2 =
      .ok (sampleMarketIdentity,
        { rows := [sampleProfileIdentity, sampleMarketIdentity], nextId := 3 }) ∧
    sampleMarketIdentity.path = "m/44'/4444446'/0'" ∧
    sampleMarketIdentity.path ≠ IdentityService.marketKeyPath :=
  ⟨rfl, rfl, by decide⟩

/-- Claim C4 (amended): a successful `createMarketIdentityForProfile`
persists and returns a record with role MARKET, no mnemonic and no
passphrase, and a derivationPath equal to the path *reported* by the
`extKeyInfo` call that was issued with the fixed market-account
sub-path "4444446'/0'". -/
theorem market_identity_role_and_reported_path (env : CoreRpcEnv)
    (profiles : List Profile) (repo : IdentityRepo) (profile : Profile)
    (pi : Identity) (masterKey : RpcExtKey)
    (hpi : IdentityService.findProfileIdentity profiles repo profile.id = .ok (some pi))
    (hmk : (env.extKeyList pi.wallet true).find? IdentityService.masterKeyPred =
      some masterKey) :
    (IdentityService.createMarketIdentityForProfile env profiles repo profile).2 =
      .ok (marketRecord env profile pi masterKey repo.nextId,
        { rows := repo.rows ++ [marketRecord env profile pi masterKey repo.nextId],
          nextId := repo.nextId + 1 }) ∧
    (marketRecord env profile pi masterKey repo.nextId).type = IdentityType.MARKET ∧
    (marketRecord env profile pi masterKey repo.nextId).mnemonic = none ∧
    (marketRecord env profile pi masterKey repo.nextId).passphrase = none ∧
    (marketRecord env profile pi masterKey repo.nextId).path =
      (env.extKeyInfo pi.wallet masterKey.evkey IdentityService.marketKeyPath).key_info.path ∧
    Call.extKeyInfo pi.wallet masterKey.evkey IdentityService.marketKeyPath ∈
      (IdentityService.createMarketIdentityForProfile env profiles repo profile).1 := by
  refine ⟨?_, rfl, rfl, rfl, rfl, ?_⟩ <;>
    simp [IdentityService.createMarketIdentityForProfile, hpi, hmk, marketRecord,
      IdentityRepo.create]

/-- Witness for C4's amended theorem at the sample fixtures. -/
theorem market_identity_role_and_reported_path_witness :
    (IdentityService.createMarketIdentityForProfile sampleEnv sampleProfiles
        sampleRepo sampleProfile).2 =
      .ok (marketRecord sampleEnv sampleProfile sampleProfileIdentity sampleMasterKey 2,
        { rows := sampleRepo.rows ++
            [marketRecord sampleEnv sampleProfile sampleProfileIdentity sampleMasterKey 2],
          nextId := 3 }) :=
  (market_identity_role_and_reported_path sampleEnv sampleProfiles sampleRepo
    sampleProfile sampleProfileIdentity sampleMasterKey (by rfl) (by rfl)).1

/-- Claim C5: a successful `createProfileIdentity` persists and returns
a record with role PROFILE, a non-empty mnemonic (given that the
custody subsystem returns a non-empty mnemonic), a non-empty passphrase
(the generated 24-character string), and a wallet name derived from the
profile's name (`"profiles/" + name`, assuming the custody subsystem
returns the wallet under its requested name). -/
theorem profile_identity_fields (env : CoreRpcEnv) (rand : ℕ → ℚ)
    (repo : IdentityRepo) (profile : Profile) (masterKey : RpcExtKey)
    (hr : ∀ i, 0 ≤ rand i ∧ rand i < 1)
    (hmk : (env.extKeyList
        (env.createAndLoadWallet ("profiles/" ++ profile.name) false true).name
        true).find? IdentityService.masterKeyPred = some masterKey)
    (hw : (env.createAndLoadWallet ("profiles/" ++ profile.name) false true).name =
      "profiles/" ++ profile.name)
    (hm : (env.mnemonic (IdentityService.mnemonicArgs
        (IdentityService.createRandom rand))).mnemonic ≠ "") :
    (IdentityService.createProfileIdentity env rand repo profile).2 =
      .ok (profileRecord env rand profile masterKey repo.nextId,
        { rows := repo.rows ++ [profileRecord env rand profile masterKey repo.nextId],
          nextId := repo.nextId + 1 }) ∧
    (profileRecord env rand profile masterKey repo.nextId).type = IdentityType.PROFILE ∧
    (profileRecord env rand profile masterKey repo.nextId).mnemonic =
      some (env.mnemonic (IdentityService.mnemonicArgs
        (IdentityService.createRandom rand))).mnemonic ∧
    (env.mnemonic (IdentityService.mnemonicArgs
      (IdentityService.createRandom rand))).mnemonic ≠ "" ∧
    (profileRecord env rand profile masterKey repo.nextId).passphrase =
      some (IdentityService.createRandom rand) ∧
    IdentityService.createRandom rand ≠ "" ∧
    (profileRecord env rand profile masterKey repo.nextId).wallet =
      "profiles/" ++ profile.name := by
  have hlen := IdentityService.createRandom_length rand 24 true true true true hr
    (by decide)
  have hpne : IdentityService.createRandom rand ≠ "" := by
    intro h
    rw [h] at hlen
    exact absurd hlen (by decide)
  exact ⟨by simp [IdentityService.createProfileIdentity, hmk, profileRecord,
      IdentityRepo.create],
    rfl, rfl, hm, rfl, hpne, hw⟩

/-- Witness for C5 at the sample fixtures over the zero stream. -/
theorem profile_identity_fields_witness :
    (IdentityService.createProfileIdentity sampleEnv zeroRand sampleRepo
        sampleProfile).2 =
      .ok (profileRecord sampleEnv zeroRand sampleProfile sampleMasterKey 2,
        { rows := sampleRepo.rows ++
            [profileRecord sampleEnv zeroRand sampleProfile sampleMasterKey 2],
          nextId := 3 }) ∧
    IdentityService.createRandom zeroRand ≠ "" :=
  ⟨(profile_identity_fields sampleEnv zeroRand sampleRepo sampleProfile
      sampleMasterKey (fun _ => ⟨le_refl 0, zero_lt_one⟩) (by rfl) (by rfl)
      (by decide)).1,
   (profile_identity_fields sampleEnv zeroRand sampleRepo sampleProfile
      sampleMasterKey (fun _ => ⟨le_refl 0, zero_lt_one⟩) (by rfl) (by rfl)
      (by decide)).2.2.2.2.2.1⟩

/-- Claim C6: a completed run of `createProfileIdentity` issues exactly
the external calls `createAndLoadWallet`, `mnemonic`,
`extKeyGenesisImport`, `extKeyList`, `getNewAddress`, `getWalletInfo`
in that order, with the `mnemonic` call parameterized exactly by
`['new', passphrase, 'english', 32, true]`, followed by exactly one
store `create` after all external calls (failed runs issue a prefix of
the same sequence and no `create`; see C1). -/
theorem profile_provisioning_call_order (env : CoreRpcEnv) (rand : ℕ → ℚ)
    (repo : IdentityRepo) (profile : Profile) (masterKey : RpcExtKey)
    (hmk : (env.extKeyList
        (env.createAndLoadWallet ("profiles/" ++ profile.name) false true).name
        true).find? IdentityService.masterKeyPred = some masterKey) :
    (IdentityService.createProfileIdentity env rand repo profile).1 =
      [Call.createAndLoadWallet ("profiles/" ++ profile.name) false true,
       Call.mnemonic (IdentityService.mnemonicArgs (IdentityService.createRandom rand)),
       Call.extKeyGenesisImport
         (env.createAndLoadWallet ("profiles/" ++ profile.name) false true).name
         [(env.mnemonic (IdentityService.mnemonicArgs
             (IdentityService.createRandom rand))).mnemonic,
          IdentityService.createRandom rand],
       Call.extKeyList
         (env.createAndLoadWallet ("profiles/" ++ profile.name) false true).name true,
       Call.getNewAddress
         (env.createAndLoadWallet ("profiles/" ++ profile.name) false true).name,
       Call.getWalletInfo ("profiles/" ++ profile.name),
       Call.storeCreate (profileCreateReq env rand profile masterKey)] ∧
    IdentityService.mnemonicArgs (IdentityService.createRandom rand) =
      [.str "new", .str (IdentityService.createRandom rand), .str "english",
       .num 32, .bool true] ∧
    ((IdentityService.createProfileIdentity env rand repo profile).1.filterMap
      Call.createReqOf) = [profileCreateReq env rand profile masterKey] := by
  refine ⟨?_, rfl, ?_⟩ <;>
    simp [IdentityService.createProfileIdentity, hmk, profileCreateReq,
      Call.createReqOf]

/-- Witness for C6 at the sample fixtures: exactly one store `create`,
holding the expected request. -/
theorem profile_provisioning_call_order_witness :
    ((IdentityService.createProfileIdentity sampleEnv zeroRand sampleRepo
        sampleProfile).1.filterMap Call.createReqOf) =
      [profileCreateReq sampleEnv zeroRand sampleProfile sampleMasterKey] :=
  (profile_provisioning_call_order sampleEnv zeroRand sampleRepo sampleProfile
    sampleMasterKey (by rfl)).2.2
